import Mathlib

/-!
Shallow embedding of the geppetto support-workflow engine
(`geppetto/freshdesk_handler/{api,models}.py`, `geppetto/llm_controller.py`,
`geppetto/ai_support_agent/{agent,models}.py`) together with proofs about the
claims of the specification.

Conventions of the embedding:
* Python exceptions are values of `PyErr`; a Python function that can raise
  returns `Except PyErr α`.
* Raising-and-re-raising (`except ... raise`) is modelled by propagating the
  same `PyErr` value; the side logging calls are collected in event lists.
* Machine integers do not overflow in any code path the claims touch, so ids,
  status codes and priorities are `Int`/`Nat`.
* The HTTP layer is a parameter: each client operation takes the per-attempt
  response of the network as a function, mirroring the real `requests` calls.
* Timestamps (`datetime`) are opaque `Nat` values: no claim depends on time
  arithmetic, only on fields being set/preserved.
-/

namespace Geppetto

/-- The four Freshdesk ticket status codes (`TicketStatus` IntEnum,
`freshdesk_handler/models.py`). -/
inductive TicketStatus
  | OPEN
  | PENDING
  | RESOLVED
  | CLOSED
deriving DecidableEq, Repr

/-- Method `TicketStatus.value`: the integer wire code of a status. -/
def TicketStatus.value : TicketStatus → Int
  | .OPEN => 2
  | .PENDING => 3
  | .RESOLVED => 4
  | .CLOSED => 5

/-- Converting a wire integer back into the enum, as Python
`TicketStatus(data["status"])`; an unknown code raises `ValueError`. -/
def TicketStatus.ofInt : Int → Option TicketStatus
  | 2 => some .OPEN
  | 3 => some .PENDING
  | 4 => some .RESOLVED
  | 5 => some .CLOSED
  | _ => none

/-- The four Freshdesk ticket priority levels (`TicketPriority` IntEnum). -/
inductive TicketPriority
  | LOW
  | MEDIUM
  | HIGH
  | URGENT
deriving DecidableEq, Repr

/-- Method `TicketPriority.value`: the integer wire code of a priority. -/
def TicketPriority.value : TicketPriority → Int
  | .LOW => 1
  | .MEDIUM => 2
  | .HIGH => 3
  | .URGENT => 4

/-- Converting a wire integer back into the enum. -/
def TicketPriority.ofInt : Int → Option TicketPriority
  | 1 => some .LOW
  | 2 => some .MEDIUM
  | 3 => some .HIGH
  | 4 => some .URGENT
  | _ => none

/-- The message payload of a `FreshdeskAPIError` raised by
`FreshdeskAPI._validate_response`.  The Python code raises one exception class
with four distinct message strings; the constructor records which raise site
fired and `text` renders the exact message. -/
inductive FdApiMsg
  | rateLimitExceeded
  | authenticationFailed
  | serverError (code : Nat)
  | apiError (body : String)
deriving DecidableEq, Repr

/-- The exact message string of each `FreshdeskAPIError` raise site. -/
def FdApiMsg.text : FdApiMsg → String
  | .rateLimitExceeded => "Rate limit exceeded"
  | .authenticationFailed => "Authentication failed"
  | .serverError code => "Freshdesk server error: " ++ toString code
  | .apiError body => "API error: " ++ body

/-- Python exception values occurring in the embedded code.  `retryError`
models `tenacity.RetryError`, which wraps the exception of the last failed
attempt when the retry budget is exhausted (tenacity default
`reraise=False`). -/
inductive PyErr
  | attributeError (msg : String)
  | nameError (name : String)
  | valueError (msg : String)
  | fdApi (m : FdApiMsg)
  | fdData (msg : String)
  | retryError (last : PyErr)
  | generic (msg : String)
deriving DecidableEq, Repr

/-- Rendering `str(e)` of an embedded exception, as used in the log payloads. -/
def PyErr.str : PyErr → String
  | .attributeError m => m
  | .nameError n => "name " ++ n ++ " is not defined"
  | .valueError m => m
  | .fdApi m => m.text
  | .fdData m => m
  | .retryError last => "RetryError: " ++ last.str
  | .generic m => m

/-- A dynamically-typed Python value as passed for the `status`/`priority`
arguments of the Freshdesk client.  The annotations promise the IntEnums but
the support agent actually passes `Optional[int]` values through, so the
domain has `None`, plain ints and both enums. -/
inductive PyVal
  | pynone
  | int (n : Int)
  | status (s : TicketStatus)
  | priority (p : TicketPriority)
deriving DecidableEq, Repr

/-- Attribute access `x.value`.  Only the IntEnum members carry a `value`
attribute; on `None` or a plain `int` Python raises `AttributeError`. -/
def PyVal.valueAttr : PyVal → Except PyErr Int
  | .status s => .ok s.value
  | .priority p => .ok p.value
  | .pynone => .error (.attributeError "NoneType object has no attribute value")
  | .int _ => .error (.attributeError "int object has no attribute value")

/-- An HTTP response as seen by `_validate_response`: the status code, the raw
body text, and the result of `response.json()` — `none` when the body is not
valid JSON (the `ValueError` branch). -/
structure HttpResponse (α : Type) where
  status_code : Nat
  text : String
  body : Option α
deriving Repr

/-- Method `FreshdeskAPI._validate_response`: classifies the response by status code
and otherwise parses the JSON body. -/
def validate_response {α : Type} (r : HttpResponse α) : Except PyErr α :=
  if r.status_code = 429 then .error (.fdApi .rateLimitExceeded)
  else if r.status_code = 401 then .error (.fdApi .authenticationFailed)
  else if r.status_code ≥ 500 then .error (.fdApi (.serverError r.status_code))
  else if r.status_code ≥ 400 then .error (.fdApi (.apiError r.text))
  else
    match r.body with
    | some j => .ok j
    | none => .error (.fdData "Invalid JSON response")

/-- The data of a `tenacity.retry` decorator: `stop_after_attempt` bound and
the `wait_exponential(multiplier, min, max)` parameters. -/
structure RetryPolicy where
  maxAttempts : Nat
  multiplier : Nat
  minWait : Nat
  maxWait : Nat
deriving DecidableEq, Repr

/-- The wait computed by `tenacity.wait_exponential` after the failed attempt
numbered `attemptNumber` (1-based): `multiplier * 2^attemptNumber` clamped
into `[minWait, maxWait]`. -/
def RetryPolicy.wait (pol : RetryPolicy) (attemptNumber : Nat) : Nat :=
  max pol.minWait (min (pol.multiplier * 2 ^ attemptNumber) pol.maxWait)

/-- The retry decorator applied to every `FreshdeskAPI` method:
`stop_after_attempt(3), wait_exponential(multiplier=1, min=4, max=10)`. -/
def fdRetryPolicy : RetryPolicy := ⟨3, 1, 4, 10⟩

/-- Core loop of `tenacity.retry`: run attempt `attempt`, with `remaining`
attempts allowed in total.  Any exception triggers a retry while budget
remains; when the budget is exhausted tenacity raises `RetryError` wrapping
the last attempt failure. -/
def retryAux {α : Type} (f : Nat → Except PyErr α) : Nat → Nat → Except PyErr α
  | _, 0 => .error (.retryError (.generic "stopped before first attempt"))
  | attempt, 1 =>
    match f attempt with
    | .ok a => .ok a
    | .error e => .error (.retryError e)
  | attempt, Nat.succ (Nat.succ r) =>
    match f attempt with
    | .ok a => .ok a
    | .error _ => retryAux f (attempt + 1) (Nat.succ r)

/-- A retry-decorated call: attempts are numbered from 1. -/
def retryCall {α : Type} (pol : RetryPolicy) (f : Nat → Except PyErr α) : Except PyErr α :=
  retryAux f 1 pol.maxAttempts

/-- The parsed JSON body of a Freshdesk ticket response, with the keys
`TicketMetadata.from_api_response` reads. -/
structure TicketJson where
  id : Int
  subject : String
  description : String
  status : Int
  priority : Int
  requester_id : Int
  created_at : String
  updated_at : String
  tags : List String
deriving DecidableEq, Repr

/-- Record `TicketMetadata` (`freshdesk_handler/models.py`).  The timestamps are kept
as their (Z-fixed) ISO strings: no claim depends on date arithmetic. -/
structure TicketMetadata where
  ticket_id : Int
  subject : String
  description : String
  status : TicketStatus
  priority : TicketPriority
  requester_id : Int
  created_at : String
  updated_at : String
  tags : List String
deriving DecidableEq, Repr

/-- The `created_at.replace("Z", "+00:00")` fix-up before `fromisoformat`. -/
def isoFix (s : String) : String := s.replace "Z" "+00:00"

/-- Method `TicketMetadata.from_api_response`: converts the wire integers back to the
enums (`ValueError` on an unknown code) and repacks the fields. -/
def TicketMetadata.from_api_response (j : TicketJson) : Except PyErr TicketMetadata :=
  match TicketStatus.ofInt j.status, TicketPriority.ofInt j.priority with
  | some st, some pr =>
    .ok ⟨j.id, j.subject, j.description, st, pr, j.requester_id,
      isoFix j.created_at, isoFix j.updated_at, j.tags⟩
  | none, _ => .error (.valueError (toString j.status ++ " is not a valid TicketStatus"))
  | _, none => .error (.valueError (toString j.priority ++ " is not a valid TicketPriority"))

/-- The JSON payload `create_ticket` posts to `POST /tickets`. -/
structure CreatePayload where
  subject : Option String
  description : Option String
  email : String
  status : Int
  priority : Int
  tags : List String
deriving DecidableEq, Repr

/-- One attempt of `FreshdeskAPI.create_ticket`: the `data` dict evaluates
`status.value` and `priority.value` before the POST, then the response is
validated and mapped.  `http` is the network: the response `POST /tickets`
yields for this payload on this attempt. -/
def create_ticket_once (http : CreatePayload → HttpResponse TicketJson)
    (subject description : Option String) (email : String)
    (status priority : PyVal) (tags : Option (List String)) :
    Except PyErr TicketMetadata := do
  let sv ← status.valueAttr
  let pv ← priority.valueAttr
  let payload : CreatePayload := ⟨subject, description, email, sv, pv, tags.getD []⟩
  let j ← validate_response (http payload)
  TicketMetadata.from_api_response j

/-- Method `FreshdeskAPI.create_ticket`, retry decorator included: the network may
answer differently on each attempt. -/
def create_ticket (http : Nat → CreatePayload → HttpResponse TicketJson)
    (subject description : Option String) (email : String)
    (status priority : PyVal) (tags : Option (List String)) :
    Except PyErr TicketMetadata :=
  retryCall fdRetryPolicy
    (fun n => create_ticket_once (http n) subject description email status priority tags)

/-- One attempt of `FreshdeskAPI.get_ticket`. -/
def get_ticket_once (http : Int → HttpResponse TicketJson) (ticket_id : Int) :
    Except PyErr TicketMetadata := do
  let j ← validate_response (http ticket_id)
  TicketMetadata.from_api_response j

/-- Method `FreshdeskAPI.get_ticket` with its retry decorator. -/
def get_ticket (http : Nat → Int → HttpResponse TicketJson) (ticket_id : Int) :
    Except PyErr TicketMetadata :=
  retryCall fdRetryPolicy (fun n => get_ticket_once (http n) ticket_id)

/-- The JSON payload `update_ticket` sends to `PUT /tickets/{id}`: only the
fields that were not `None`. -/
structure UpdatePayload where
  status : Option Int
  priority : Option Int
deriving DecidableEq, Repr

/-- One attempt of `FreshdeskAPI.update_ticket`: `status.value` is evaluated
only under `if status is not None`, and likewise for priority. -/
def update_ticket_once (http : Int → UpdatePayload → HttpResponse TicketJson)
    (ticket_id : Int) (status priority : PyVal) : Except PyErr TicketMetadata := do
  let sv ← match status with
    | .pynone => pure (none : Option Int)
    | v => do pure (some (← v.valueAttr))
  let pv ← match priority with
    | .pynone => pure (none : Option Int)
    | v => do pure (some (← v.valueAttr))
  let j ← validate_response (http ticket_id ⟨sv, pv⟩)
  TicketMetadata.from_api_response j

/-- Method `FreshdeskAPI.update_ticket` with its retry decorator. -/
def update_ticket (http : Nat → Int → UpdatePayload → HttpResponse TicketJson)
    (ticket_id : Int) (status priority : PyVal) : Except PyErr TicketMetadata :=
  retryCall fdRetryPolicy (fun n => update_ticket_once (http n) ticket_id status priority)

/-- The JSON payload of `POST /tickets/{id}/notes`. -/
structure NotePayload where
  body : String
  private_ : Bool
deriving DecidableEq, Repr

/-- One attempt of `FreshdeskAPI.add_note`; the parsed response dict is
returned as-is, so its type is a parameter. -/
def add_note_once {α : Type} (http : Int → NotePayload → HttpResponse α)
    (ticket_id : Int) (body : String) ( is_private : Bool) : Except PyErr α :=
  validate_response (http ticket_id ⟨body, is_private⟩)

/-- Method `FreshdeskAPI.add_note` with its retry decorator. -/
def add_note {α : Type} (http : Nat → Int → NotePayload → HttpResponse α)
    (ticket_id : Int) (body : String) ( is_private : Bool) : Except PyErr α :=
  retryCall fdRetryPolicy (fun n => add_note_once (http n) ticket_id body is_private)

/-- The `file_data: Union[str, bytes]` argument of `upload_attachment`. -/
inductive FileData
  | fstr (s : String)
  | fbytes (b : List Nat)
deriving DecidableEq, Repr

/-- The `isinstance(file_data, str)` branch: a string is UTF-8 encoded. -/
def FileData.toBytes : FileData → List Nat
  | .fstr s => (s.toUTF8.toList.map UInt8.toNat)
  | .fbytes b => b

/-- The multipart payload of `POST /tickets/{id}/attachments`. -/
structure AttachmentFiles where
  file_name : String
  file_data : List Nat
deriving DecidableEq, Repr

/-- One attempt of `FreshdeskAPI.upload_attachment`. -/
def upload_attachment_once {α : Type} (http : Int → AttachmentFiles → HttpResponse α)
    (ticket_id : Int) (file_data : FileData) (file_name : String) : Except PyErr α :=
  validate_response (http ticket_id ⟨file_name, file_data.toBytes⟩)

/-- Method `FreshdeskAPI.upload_attachment` with its retry decorator. -/
def upload_attachment {α : Type} (http : Nat → Int → AttachmentFiles → HttpResponse α)
    (ticket_id : Int) (file_data : FileData) (file_name : String) : Except PyErr α :=
  retryCall fdRetryPolicy (fun n => upload_attachment_once (http n) ticket_id file_data file_name)

end Geppetto

namespace Geppetto

/-- Conversation identifiers (`uuid.UUID`), modelled as opaque naturals.  A
Python `UUID` instance defines no `__bool__`/`__len__`, so it is always truthy
regardless of its value. -/
abbrev UUID := Nat

/-- Enum `WorkflowState` (`ai_support_agent/models.py`). -/
inductive WorkflowState
  | INITIAL
  | GATHERING_INFO
  | ANALYZING
  | RESOLVING
  | VERIFYING
  | ESCALATING
  | RESOLVED
  | CLOSED
deriving DecidableEq, Repr

/-- Enum `IssueCategory` (`ai_support_agent/models.py`). -/
inductive IssueCategory
  | ACCESS
  | SOFTWARE
  | HARDWARE
  | NETWORK
  | SECURITY
  | OTHER
deriving DecidableEq, Repr

/-- Enum `IssueUrgency` (`ai_support_agent/models.py`). -/
inductive IssueUrgency
  | LOW
  | MEDIUM
  | HIGH
  | CRITICAL
deriving DecidableEq, Repr

/-- Model `SupportContext` (`ai_support_agent/models.py`): per-conversation mutable
state.  `last_updated` is an opaque timestamp. -/
structure SupportContext where
  conversation_id : UUID
  user_id : String
  channel_id : String
  thread_ts : Option String
  ticket_id : Option Int
  current_state : WorkflowState
  last_updated : Nat
  category : Option IssueCategory
  urgency : Option IssueUrgency
  summary : Option String
  gathered_info : List (String × String)
  missing_info : List String
deriving DecidableEq, Repr

/-- A fresh `SupportContext` as built by the pydantic defaults when only
`user_id`, `channel_id`, `thread_ts` are supplied and the default factory
produced `cid` for `conversation_id` and `now` for `last_updated`. -/
def SupportContext.new (cid : UUID) (user_id channel_id : String)
    (thread_ts : Option String) (now : Nat) : SupportContext :=
  ⟨cid, user_id, channel_id, thread_ts, none, .INITIAL, now, none, none, none, [], []⟩

/-- Model `TicketAction` (`ai_support_agent/models.py`): the validated directive. -/
structure TicketAction where
  action : String
  priority : Option Int
  status : Option Int
  subject : Option String
  description : Option String
  tags : List String
  reasoning : String
  next_steps : List String
deriving DecidableEq, Repr

/-- The `Literal` values admitted for `TicketAction.action`. -/
def ticketActionLiterals : List String := ["create", "update", "resolve", "escalate"]

/-- Pydantic construction of a `TicketAction`.  Required fields (`action`,
`reasoning`) are `Option` inputs so that absence is expressible; optional
fields default to `None`/`[]`.  Validation enforces: `action` present and one
of the four literals, `priority` absent or in `1..4` (`ge=1, le=4`),
`reasoning` present.  `subject` and `description` carry no constraint. -/
def mkTicketAction (action : Option String) (priority : Option Int)
    (status : Option Int) (subject description : Option String)
    (tags : Option (List String)) (reasoning : Option String)
    (next_steps : Option (List String)) : Except PyErr TicketAction :=
  match action with
  | none => .error (.valueError "validation error for TicketAction: action field required")
  | some a =>
    if a ∈ ticketActionLiterals then
      match priority with
      | some p =>
        if 1 ≤ p ∧ p ≤ 4 then
          match reasoning with
          | none => .error (.valueError "validation error for TicketAction: reasoning field required")
          | some r => .ok ⟨a, some p, status, subject, description, tags.getD [], r, next_steps.getD []⟩
        else .error (.valueError "validation error for TicketAction: priority out of range")
      | none =>
        match reasoning with
        | none => .error (.valueError "validation error for TicketAction: reasoning field required")
        | some r => .ok ⟨a, none, status, subject, description, tags.getD [], r, next_steps.getD []⟩
    else .error (.valueError "validation error for TicketAction: action not a permitted literal")

/-- Model `AgentAction` (`ai_support_agent/models.py`); `confidence` is a rational
stand-in for the Python float, which the claims only carry around. -/
structure AgentAction where
  action_type : String
  parameters : List (String × String)
  reasoning : String
  confidence : Rat
deriving DecidableEq, Repr

/-- Model `ITSupportResponse` (`ai_support_agent/models.py`). -/
structure ITSupportResponse where
  understanding : String
  solution : Option String
  needs_human_intervention : Bool
  confidence : Rat
  follow_up_questions : List String
  ticket_action : Option TicketAction
  agent_action : AgentAction
deriving DecidableEq, Repr

/-- The `details` dict shapes occurring in `SupportAgent` log calls. -/
inductive EventDetails
  | errorText (e : String)
  | processed (confidence : Rat) (needs_human : Bool)
  | createdTicket (id : Int)
  | updatedTicket (id : Int)
deriving DecidableEq, Repr

/-- Model `SupportEvent` (`ai_support_agent/models.py`), as filled in by
`SupportAgent._log_event` from the current fields of the context.  The timestamp
default is irrelevant to every claim and is omitted. -/
structure SupportEvent where
  event_type : String
  user_id : String
  channel_id : String
  conversation_id : UUID
  ticket_id : Option Int
  workflow_state : WorkflowState
  action_taken : String
  details : Option EventDetails
deriving DecidableEq, Repr

/-- Method `SupportAgent._log_event`: builds the event from the current
identifying fields and state. -/
def mkEvent (event_type : String) (ctx : SupportContext) (action : String)
    (details : Option EventDetails) : SupportEvent :=
  ⟨event_type, ctx.user_id, ctx.channel_id, ctx.conversation_id, ctx.ticket_id,
    ctx.current_state, action, details⟩

/-- Python truthiness of the `Optional[int]` field `ticket_id`: `None` and
`0` are falsy, every other int is truthy.  The agent guards read
`not context.ticket_id` / `context.ticket_id`, i.e. truthiness, not
`is None`. -/
def pyTruthy : Option Int → Bool
  | none => false
  | some n => n != 0

/-- The arguments of the `freshdesk.create_ticket` call issued by
`_handle_ticket_action`: the fields of the directive plus the placeholder email.
`status` and `priority` travel as dynamic values (`Optional[int]` in the
directive, enum-annotated in the client). -/
structure CreateCallArgs where
  subject : Option String
  description : Option String
  email : String
  status : PyVal
  priority : PyVal
  tags : List String
deriving DecidableEq, Repr

/-- The arguments of the `freshdesk.update_ticket` call issued by
`_handle_ticket_action`. -/
structure UpdateCallArgs where
  ticket_id : Int
  status : PyVal
  priority : PyVal
deriving DecidableEq, Repr

/-- A ticketing-client invocation issued by the agent, recorded for the
frame/effect claims. -/
inductive TicketCall
  | create (a : CreateCallArgs)
  | update (a : UpdateCallArgs)
deriving DecidableEq, Repr

/-- Wrapping an `Optional[int]` directive field into the dynamic domain. -/
def PyVal.ofOptInt : Option Int → PyVal
  | none => .pynone
  | some n => .int n

/-- The ticketing client as the agent sees it (`self.freshdesk`): one function
per operation the agent uses.  Instantiated with the real client below and
with mocks in the agent-level theorems, exactly as the tests of the repository
do. -/
structure FdClient where
  create : CreateCallArgs → Except PyErr TicketMetadata
  update : UpdateCallArgs → Except PyErr TicketMetadata

/-- The outcome of `_handle_ticket_action`: the raised-or-returned result, the
context after the call (the Python method mutates `context` in place), the
client calls issued and the events logged, in order. -/
structure HandleResult where
  result : Except PyErr Unit
  ctx : SupportContext
  calls : List TicketCall
  events : List SupportEvent
deriving Repr

/-- Method `SupportAgent._handle_ticket_action`.  Branch structure of the source:
`if action.action == "create" and not context.ticket_id: ... elif
action.action == "update" and context.ticket_id: ... ` with a broad
`except` that logs `ticket_error` and re-raises. -/
def handle_ticket_action (fd : FdClient) (ctx : SupportContext) (action : TicketAction) :
    HandleResult :=
  if action.action = "create" ∧ pyTruthy ctx.ticket_id = false then
    let args : CreateCallArgs :=
      ⟨action.subject, action.description, "user@example.com",
        PyVal.ofOptInt action.status, PyVal.ofOptInt action.priority, action.tags⟩
    match fd.create args with
    | .ok ticket =>
      let ctx' := { ctx with ticket_id := some ticket.ticket_id }
      ⟨.ok (), ctx', [.create args],
        [mkEvent "ticket_created" ctx' "create_ticket" (some (.createdTicket ticket.ticket_id))]⟩
    | .error e =>
      ⟨.error e, ctx, [.create args],
        [mkEvent "ticket_error" ctx "error" (some (.errorText e.str))]⟩
  else if action.action = "update" ∧ pyTruthy ctx.ticket_id = true then
    match ctx.ticket_id with
    | some tid =>
      let args : UpdateCallArgs :=
        ⟨tid, PyVal.ofOptInt action.status, PyVal.ofOptInt action.priority⟩
      match fd.update args with
      | .ok _ =>
        ⟨.ok (), ctx, [.update args],
          [mkEvent "ticket_updated" ctx "update_ticket" (some (.updatedTicket tid))]⟩
      | .error e =>
        ⟨.error e, ctx, [.update args],
          [mkEvent "ticket_error" ctx "error" (some (.errorText e.str))]⟩
    | none => ⟨.ok (), ctx, [], []⟩
  else
    ⟨.ok (), ctx, [], []⟩

/-- Model `ChatMessage` (role/content pair) as in both `llm_controller.py` and
`agent.py`. -/
structure ChatMessage where
  role : String
  content : String
deriving DecidableEq, Repr

/-- ASCII apostrophe, spelled by code point. -/
def apos : Char := Char.ofNat 39

/-- The fixed system instruction of `process_message`. -/
def systemPrompt : String :=
  "You are an IT support agent. Analyze the user" ++ String.singleton apos ++
    "s issue and provide structured responses to help resolve their problem."

/-- The two-message exchange `process_message` builds. -/
def buildMessages (message : String) : List ChatMessage :=
  [⟨"system", systemPrompt⟩, ⟨"user", message⟩]

/-- The outcome of `process_message`: result, mutated context, ticketing calls
issued and events logged. -/
structure ProcResult where
  result : Except PyErr ITSupportResponse
  ctx : SupportContext
  calls : List TicketCall
  events : List SupportEvent
deriving Repr

/-- Method `SupportAgent.process_message`.  Here `llm` is the behaviour of
`self.llm.generate_with_schema` on this call (the messages determine the
outcome); `now` is `datetime.now(timezone.utc)`.  The outer `except` logs
`processing_error` with the error text and re-raises, after any events the
ticket-action step already logged. -/
def process_message (llm : List ChatMessage → Except PyErr ITSupportResponse)
    (fd : FdClient) (now : Nat) (message : String) (ctx : SupportContext) :
    ProcResult :=
  let ctx1 := { ctx with last_updated := now }
  let messages := buildMessages message
  match llm messages with
  | .error e =>
    ⟨.error e, ctx1, [],
      [mkEvent "processing_error" ctx1 "error" (some (.errorText e.str))]⟩
  | .ok response =>
    match response.ticket_action with
    | some action =>
      let h := handle_ticket_action fd ctx1 action
      match h.result with
      | .error e =>
        ⟨.error e, h.ctx, h.calls,
          h.events ++ [mkEvent "processing_error" h.ctx "error" (some (.errorText e.str))]⟩
      | .ok _ =>
        ⟨.ok response, h.ctx, h.calls,
          h.events ++ [mkEvent "message_processed" h.ctx response.agent_action.action_type
            (some (.processed response.confidence response.needs_human_intervention))]⟩
    | none =>
      ⟨.ok response, ctx1, [],
        [mkEvent "message_processed" ctx1 response.agent_action.action_type
          (some (.processed response.confidence response.needs_human_intervention))]⟩

/-- The real ticketing client plugged into the agent: `create`/`update` call
the `FreshdeskAPI` embedding with exactly the arguments the agent passes
(`tags=action.tags`, a list, so never `None`). -/
def realFdClient (httpPost : Nat → CreatePayload → HttpResponse TicketJson)
    (httpPut : Nat → Int → UpdatePayload → HttpResponse TicketJson) : FdClient where
  create := fun a =>
    create_ticket httpPost a.subject a.description a.email a.status a.priority (some a.tags)
  update := fun a => update_ticket httpPut a.ticket_id a.status a.priority

end Geppetto

namespace Geppetto

/-- A model backend handler held by `LLMController` (`self.handlers[name]`);
only the `model` attribute is read on the `generate_with_schema` path. -/
structure Handler where
  model : String
deriving DecidableEq, Repr

/-- The global names in scope in module `geppetto/llm_controller.py`: its
imports and its own definitions.  `OpenAIChatModel` is NOT among them — the
name is referenced in `generate_with_schema` but never imported or defined
anywhere in the repository. -/
def llmControllerGlobals : List String :=
  ["logging", "List", "Dict", "Type", "Optional", "Any", "BaseModel",
    "ChatMessage", "LLMController"]

/-- Evaluating a bare name in the module: a name not in scope raises
`NameError`. -/
def lookupGlobal (name : String) : Except PyErr Unit :=
  if name ∈ llmControllerGlobals then .ok () else .error (.nameError name)

/-- Method `LLMController.generate_with_schema`.  The body first checks
`self.current_handler`, then inside `try` evaluates the name
`OpenAIChatModel` to construct the chat model; the `except` block logs and
re-raises the same exception.  `backendGen` stands for the
`chat_model.generate(...)` continuation that would run if construction
succeeded. -/
def generate_with_schema (current_handler : Option Handler)
    (messages : List ChatMessage)
    (backendGen : Handler → List ChatMessage → Except PyErr ITSupportResponse) :
    Except PyErr ITSupportResponse :=
  match current_handler with
  | none => .error (.valueError "No handler is currently set")
  | some h =>
    match lookupGlobal "OpenAIChatModel" with
    | .error e => .error e
    | .ok _ => backendGen h messages

/-- The context store of the agent, modelled with explicit object identity:
`heap` is the set of live `SupportContext` objects (an address is an index
into it) and `contexts` is the dict `self.contexts` mapping
`conversation_id` to the address of the stored object. -/
structure AgentState where
  heap : List SupportContext
  contexts : List (UUID × Nat)
deriving Repr

/-- Dict lookup `self.contexts[conversation_id]` /
`conversation_id in self.contexts`. -/
def AgentState.lookup (st : AgentState) (cid : UUID) : Option Nat :=
  st.contexts.lookup cid

/-- The outcome of `get_or_create_context`: the address of the returned
context object, the new agent state, and the events logged. -/
structure GocResult where
  addr : Nat
  st : AgentState
  events : List SupportEvent
deriving Repr

/-- The create path of `get_or_create_context`: builds the new context,
registers it under its own fresh `conversation_id`, logs
`context_created`. -/
def createNewContext (st : AgentState) (user_id channel_id : String)
    (thread_ts : Option String) (freshId : UUID) (now : Nat) : GocResult :=
  let ctx := SupportContext.new freshId user_id channel_id thread_ts now
  let addr := st.heap.length
  ⟨addr, ⟨st.heap ++ [ctx], (freshId, addr) :: st.contexts⟩,
    [mkEvent "context_created" ctx "create_context" none]⟩

/-- Method `SupportAgent.get_or_create_context`.  A supplied `UUID` is always truthy
(no `__bool__`/`__len__` on `uuid.UUID`), so `if conversation_id and
conversation_id in self.contexts` reduces to: supplied and known.  On the
create path `freshId` is the `uuid4()` the default factory produced and
`now` the creation timestamp. -/
def get_or_create_context (st : AgentState) (user_id channel_id : String)
    (thread_ts : Option String) (conversation_id : Option UUID)
    (freshId : UUID) (now : Nat) : GocResult :=
  match conversation_id with
  | some cid =>
    match st.lookup cid with
    | some addr => ⟨addr, st, []⟩
    | none => createNewContext st user_id channel_id thread_ts freshId now
  | none => createNewContext st user_id channel_id thread_ts freshId now

/-- One engine operation on a conversation context, for the lifecycle
invariant: a `process_message` turn (with the behaviour of the router and
client fixed for that turn) or a bare ticket-action application. -/
inductive EngineOp
  | proc (llm : List ChatMessage → Except PyErr ITSupportResponse)
      (fd : FdClient) (now : Nat) (message : String)
  | ticketAct (fd : FdClient) (action : TicketAction)

/-- The context after running one engine operation. -/
def runOp (ctx : SupportContext) : EngineOp → SupportContext
  | .proc llm fd now message => (process_message llm fd now message ctx).ctx
  | .ticketAct fd action => (handle_ticket_action fd ctx action).ctx

/-- The context after a sequence of engine operations. -/
def runOps (ctx : SupportContext) (ops : List EngineOp) : SupportContext :=
  ops.foldl runOp ctx

end Geppetto

namespace Geppetto

/-- Unfolding of a 3-attempt retry loop: the first success is returned, three
failures surface `RetryError` around the last one. -/
theorem retryCall_three {α : Type} (f : Nat → Except PyErr α) :
    retryCall fdRetryPolicy f =
      match f 1, f 2, f 3 with
      | .ok a, _, _ => .ok a
      | .error _, .ok a, _ => .ok a
      | .error _, .error _, .ok a => .ok a
      | .error _, .error _, .error e => .error (.retryError e) := by
  show retryAux f 1 3 = _
  cases h1 : f 1 with
  | ok a => simp [retryAux, h1]
  | error e1 =>
    cases h2 : f 2 with
    | ok a => simp [retryAux, h1, h2]
    | error e2 =>
      cases h3 : f 3 with
      | ok a => simp [retryAux, h1, h2, h3]
      | error e3 => simp [retryAux, h1, h2, h3]

/-- C8: `_validate_response` classifies responses exactly by status code:
rate-limit error iff 429, authentication error iff 401, server error iff
`>= 500`, a generic API error carrying the body for every other code in
400–499, data error iff the status is below 400 and the body is not valid
JSON, and otherwise the parsed JSON body is returned. -/
theorem C8_validate_response_classification {α : Type} (r : HttpResponse α) :
    (validate_response r = .error (.fdApi .rateLimitExceeded) ↔ r.status_code = 429) ∧
    (validate_response r = .error (.fdApi .authenticationFailed) ↔ r.status_code = 401) ∧
    ((∃ c, validate_response r = .error (.fdApi (.serverError c))) ↔ 500 ≤ r.status_code) ∧
    ((400 ≤ r.status_code ∧ r.status_code ≤ 499 ∧ r.status_code ≠ 429 ∧ r.status_code ≠ 401) ↔
      validate_response r = .error (.fdApi (.apiError r.text))) ∧
    ((∃ m, validate_response r = .error (.fdData m)) ↔ (r.status_code < 400 ∧ r.body = none)) ∧
    (∀ j, r.status_code < 400 → r.body = some j → validate_response r = .ok j) := by
  obtain ⟨sc, text, body⟩ := r
  simp only [validate_response]
  by_cases h429 : sc = 429
  · subst h429
    simp
  · by_cases h401 : sc = 401
    · subst h401
      simp
    · by_cases h500 : sc ≥ 500
      · simp [h429, h401, h500]
        exact ⟨by omega, fun h => absurd h (by omega), fun j h => absurd h (by omega)⟩
      · by_cases h400 : sc ≥ 400
        · simp [h429, h401, h500, h400]
          omega
        · cases body with
          | some j => simp [h429, h401, h500, h400]
          | none => simp [h429, h401, h500, h400]; omega

/-- C8 witness: a 429 response is classified as the rate-limit error. -/
theorem C8_witness :
    validate_response ({ status_code := 429, text := "retry later", body := none } :
      HttpResponse TicketJson) = .error (.fdApi .rateLimitExceeded) :=
  (C8_validate_response_classification _).1.mpr rfl

/-- C9 counterexample: constructing a `TicketAction` with `action="create"`
and both `subject` and `description` absent succeeds — the constructor
returns the instance and raises no validation error, contrary to the
claim. -/
theorem C9_counterexample :
    mkTicketAction (some "create") none none none none none
        (some "User reported a network outage") none =
      .ok ⟨"create", none, none, none, none, [], "User reported a network outage", []⟩ ∧
    (mkTicketAction (some "create") none none none none none
        (some "User reported a network outage") none).isOk = true := by
  exact ⟨rfl, rfl⟩

/-- C9 (amended): `subject` and `description` are optional for every action,
`create` included; construction succeeds whenever `action` is one of the four
literals, `priority` is absent or in 1–4, and `reasoning` is present —
regardless of `subject`/`description`. -/
theorem C9_amended_create_without_subject (a : String) (ha : a ∈ ticketActionLiterals)
    (p : Option Int) (hp : ∀ n, p = some n → 1 ≤ n ∧ n ≤ 4)
    (st : Option Int) (subject description : Option String)
    (tg : Option (List String)) (r : String) (ns : Option (List String)) :
    mkTicketAction (some a) p st subject description tg (some r) ns =
      .ok ⟨a, p, st, subject, description, tg.getD [], r, ns.getD []⟩ := by
  cases p with
  | none => simp [mkTicketAction, ha]
  | some n =>
    have hn := hp n rfl
    simp [mkTicketAction, ha, hn]

/-- C9 amended witness: a create directive without subject and description
constructs successfully. -/
theorem C9_amended_witness :
    mkTicketAction (some "create") none none none none none (some "needed") none =
      .ok ⟨"create", none, none, none, none, [], "needed", []⟩ :=
  C9_amended_create_without_subject "create" (by decide) none
    (fun n h => Option.noConfusion h) none none none none "needed" none

/-- C1: `LLMController.generate_with_schema` never returns a schema instance
and never raises a `GenerationError` (no such class exists in the
repository): with a handler set, every call raises
`NameError: name OpenAIChatModel is not defined`, because the body references
the undefined name `OpenAIChatModel` and the `except` block re-raises the
exception unchanged. -/
theorem C1_generate_with_schema_always_nameError (h : Handler)
    (messages : List ChatMessage)
    (backendGen : Handler → List ChatMessage → Except PyErr ITSupportResponse) :
    generate_with_schema (some h) messages backendGen =
      .error (.nameError "OpenAIChatModel") := by
  rfl

end Geppetto

namespace Geppetto

/-- The Scenario-B directive: `action="create", subject="Network issue",
priority=1`, all other fields at their defaults (in particular
`status=None`). -/
def scenarioBDirective : TicketAction :=
  ⟨"create", some 1, none, some "Network issue", none, [],
    "User cannot reach the network", []⟩

/-- A fresh conversation context with `ticket_id` unset. -/
def scenarioBCtx : SupportContext := SupportContext.new 7 "U123456" "C789012" none 100

/-- C2: evaluating the ticket-create path of Scenario B against the real
Freshdesk client.  The agent passes the `status` of the directive (`None`) and
`priority` (the plain int 1) into `create_ticket`, whose payload evaluates
`status.value` — an `AttributeError` on every retry attempt, for every
network behaviour.  The create call is issued but fails, `ticket_id` stays
unset, and a `ticket_error` event is logged: the claimed successful creation
never happens. -/
theorem C2_scenarioB_create_raises (httpPost : Nat → CreatePayload → HttpResponse TicketJson)
    (httpPut : Nat → Int → UpdatePayload → HttpResponse TicketJson) :
    (handle_ticket_action (realFdClient httpPost httpPut) scenarioBCtx scenarioBDirective).result =
      .error (.retryError (.attributeError "NoneType object has no attribute value")) ∧
    (handle_ticket_action (realFdClient httpPost httpPut) scenarioBCtx scenarioBDirective).ctx.ticket_id =
      none ∧
    (handle_ticket_action (realFdClient httpPost httpPut) scenarioBCtx scenarioBDirective).calls =
      [TicketCall.create
        ⟨some "Network issue", none, "user@example.com", .pynone, .int 1, []⟩] ∧
    (handle_ticket_action (realFdClient httpPost httpPut) scenarioBCtx scenarioBDirective).events.map
        (fun ev => ev.event_type) = ["ticket_error"] := by
  refine ⟨rfl, rfl, rfl, rfl⟩

end Geppetto

namespace Geppetto

/-- A network that answers HTTP 429 with body `text` on every attempt. -/
def always429 {α : Type} (text : String) : HttpResponse α :=
  ⟨429, text, none⟩

/-- C5: every Freshdesk client operation is wrapped in the same retry policy
— `stop_after_attempt(3)`, `wait_exponential(multiplier=1, min=4, max=10)` —
which retries on any exception of an attempt and, after three failures,
surfaces `RetryError` wrapping the last one; with HTTP 429 on all three
attempts each operation surfaces the rate-limit error (inside the
`RetryError`), and the orchestrator reacts to any such client failure by
logging a `ticket_error` event and leaving `ticket_id` unchanged. -/
theorem C5_retry_rate_limit :
    fdRetryPolicy = RetryPolicy.mk 3 1 4 10 ∧
    (fdRetryPolicy.wait 1 = 4 ∧ fdRetryPolicy.wait 2 = 4) ∧
    (∀ http subject description email status priority tags,
      create_ticket http subject description email status priority tags =
        retryCall fdRetryPolicy
          (fun n => create_ticket_once (http n) subject description email status priority tags)) ∧
    (∀ http tid, get_ticket http tid =
      retryCall fdRetryPolicy (fun n => get_ticket_once (http n) tid)) ∧
    (∀ http tid status priority, update_ticket http tid status priority =
      retryCall fdRetryPolicy (fun n => update_ticket_once (http n) tid status priority)) ∧
    (∀ (α : Type) http tid body priv, @add_note α http tid body priv =
      retryCall fdRetryPolicy (fun n => add_note_once (http n) tid body priv)) ∧
    (∀ (α : Type) http tid fdata fname, @upload_attachment α http tid fdata fname =
      retryCall fdRetryPolicy (fun n => upload_attachment_once (http n) tid fdata fname)) ∧
    (∀ (α : Type) (f : Nat → Except PyErr α) (a : α) (e1 e2 e3 : PyErr),
      (f 1 = .ok a → retryCall fdRetryPolicy f = .ok a) ∧
      (f 1 = .error e1 → f 2 = .ok a → retryCall fdRetryPolicy f = .ok a) ∧
      (f 1 = .error e1 → f 2 = .error e2 → f 3 = .ok a → retryCall fdRetryPolicy f = .ok a) ∧
      (f 1 = .error e1 → f 2 = .error e2 → f 3 = .error e3 →
        retryCall fdRetryPolicy f = .error (.retryError e3))) ∧
    (∀ subject description email tags text,
      create_ticket (fun _ _ => always429 text) subject description email
        (.status .OPEN) (.priority .LOW) tags =
        .error (.retryError (.fdApi .rateLimitExceeded))) ∧
    (∀ tid text, get_ticket (fun _ _ => always429 text) tid =
      .error (.retryError (.fdApi .rateLimitExceeded))) ∧
    (∀ tid text, update_ticket (fun _ _ _ => always429 text) tid
        (.status .PENDING) (.priority .MEDIUM) =
      .error (.retryError (.fdApi .rateLimitExceeded))) ∧
    (∀ (α : Type) tid body priv text,
      @add_note α (fun _ _ _ => always429 text) tid body priv =
        .error (.retryError (.fdApi .rateLimitExceeded))) ∧
    (∀ (α : Type) tid fdata fname text,
      @upload_attachment α (fun _ _ _ => always429 text) tid fdata fname =
        .error (.retryError (.fdApi .rateLimitExceeded))) ∧
    (∀ (fd : FdClient) (ctx : SupportContext) (action : TicketAction) (e : PyErr),
      action.action = "create" → pyTruthy ctx.ticket_id = false →
      (∀ args, fd.create args = .error e) →
      (handle_ticket_action fd ctx action).result = .error e ∧
      (handle_ticket_action fd ctx action).ctx.ticket_id = ctx.ticket_id ∧
      (handle_ticket_action fd ctx action).events =
        [mkEvent "ticket_error" ctx "error" (some (.errorText e.str))]) := by
  refine ⟨rfl, ⟨rfl, rfl⟩, fun _ _ _ _ _ _ _ => rfl, fun _ _ => rfl, fun _ _ _ _ => rfl,
    fun _ _ _ _ _ => rfl, fun _ _ _ _ _ => rfl, ?_, ?_, ?_, ?_, ?_, ?_, ?_⟩
  · intro α f a e1 e2 e3
    refine ⟨fun h1 => ?_, fun h1 h2 => ?_, fun h1 h2 h3 => ?_, fun h1 h2 h3 => ?_⟩
    · rw [retryCall_three]; simp [h1]
    · rw [retryCall_three]; simp [h1, h2]
    · rw [retryCall_three]; simp [h1, h2, h3]
    · rw [retryCall_three]; simp [h1, h2, h3]
  · intro subject description email tags text
    rfl
  · intro tid text
    rfl
  · intro tid text
    rfl
  · intro α tid body priv text
    rfl
  · intro α tid fdata fname text
    rfl
  · intro fd ctx action e ha ht hfd
    have hargs := hfd ⟨action.subject, action.description, "user@example.com",
      PyVal.ofOptInt action.status, PyVal.ofOptInt action.priority, action.tags⟩
    simp [handle_ticket_action, ha, ht, hargs]

end Geppetto

namespace Geppetto

/-- A mock client whose create operation always surfaces the rate-limited
retry failure (as the real client does under persistent HTTP 429). -/
def rateLimitedClient : FdClient :=
  ⟨fun _ => .error (.retryError (.fdApi .rateLimitExceeded)),
    fun _ => .error (.retryError (.fdApi .rateLimitExceeded))⟩

/-- A context and create directive used to instantiate the Scenario-D
orchestrator conjunct. -/
def scenarioDCtx : SupportContext := SupportContext.new 11 "U777" "C777" none 5

/-- A create directive for the Scenario-D instantiation. -/
def scenarioDDirective : TicketAction :=
  ⟨"create", some 2, none, some "VPN down", some "Cannot start VPN", [],
    "Outage needs a ticket", []⟩

/-- C5 witness: the orchestrator conjunct instantiated at a rate-limited
client — `ticket_error` is logged and `ticket_id` is unchanged. -/
theorem C5_witness :
    (handle_ticket_action rateLimitedClient scenarioDCtx scenarioDDirective).result =
      .error (.retryError (.fdApi .rateLimitExceeded)) ∧
    (handle_ticket_action rateLimitedClient scenarioDCtx scenarioDDirective).ctx.ticket_id =
      scenarioDCtx.ticket_id ∧
    (handle_ticket_action rateLimitedClient scenarioDCtx scenarioDDirective).events =
      [mkEvent "ticket_error" scenarioDCtx "error"
        (some (.errorText (PyErr.str (.retryError (.fdApi .rateLimitExceeded)))))] :=
  (C5_retry_rate_limit.2.2.2.2.2.2.2.2.2.2.2.2.2) rateLimitedClient scenarioDCtx
    scenarioDDirective (.retryError (.fdApi .rateLimitExceeded)) rfl rfl (fun _ => rfl)

end Geppetto

namespace Geppetto

/-- A mocked client returning a fixed ticket record with id 42. -/
def fdOk42 : FdClient :=
  ⟨fun _ => .ok ⟨42, "s", "d", .OPEN, .LOW, 9, "t0", "t0", []⟩,
    fun _ => .ok ⟨42, "s", "d", .OPEN, .LOW, 9, "t0", "t0", []⟩⟩

/-- A context whose `ticket_id` is already set — to the integer 0. -/
def zeroTicketCtx : SupportContext :=
  { SupportContext.new 21 "U21" "C21" none 3 with ticket_id := some 0 }

/-- A create directive used against `zeroTicketCtx`. -/
def dupCreateDirective : TicketAction :=
  ⟨"create", none, none, some "dup subject", some "dup description", [],
    "Second create attempt", []⟩

/-- C3 counterexample: the create guard is Python truthiness
(`not context.ticket_id`), not an unset test — on a context whose
`ticket_id` is set to `0` a create directive DOES issue a second create
call, contradicting the claim that no call is made once `ticket_id` is
set. -/
theorem C3_counterexample :
    zeroTicketCtx.ticket_id = some 0 ∧
    (handle_ticket_action fdOk42 zeroTicketCtx dupCreateDirective).calls =
      [TicketCall.create
        ⟨some "dup subject", some "dup description", "user@example.com",
          .pynone, .pynone, []⟩] :=
  ⟨rfl, rfl⟩

/-- C3 (amended): `_handle_ticket_action` issues a ticketing call in exactly
two cases — a create call when the action is `create` and `ticket_id` is
falsy (`None` or `0`), and an update call when the action is `update` and
`ticket_id` is truthy (set and nonzero); in every other case (create on a
truthy `ticket_id`, update on a falsy one, and any `resolve`/`escalate`
directive) no call is issued and the context is returned unchanged. -/
theorem C3_amended_dispatch (fd : FdClient) (ctx : SupportContext) (action : TicketAction) :
    (action.action = "create" → pyTruthy ctx.ticket_id = false →
      (handle_ticket_action fd ctx action).calls =
        [TicketCall.create
          ⟨action.subject, action.description, "user@example.com",
            PyVal.ofOptInt action.status, PyVal.ofOptInt action.priority, action.tags⟩]) ∧
    (action.action = "update" → pyTruthy ctx.ticket_id = true →
      ∃ tid, ctx.ticket_id = some tid ∧
        (handle_ticket_action fd ctx action).calls =
          [TicketCall.update ⟨tid, PyVal.ofOptInt action.status, PyVal.ofOptInt action.priority⟩]) ∧
    (¬(action.action = "create" ∧ pyTruthy ctx.ticket_id = false) →
     ¬(action.action = "update" ∧ pyTruthy ctx.ticket_id = true) →
      (handle_ticket_action fd ctx action).calls = [] ∧
      (handle_ticket_action fd ctx action).ctx = ctx ∧
      (handle_ticket_action fd ctx action).result = .ok () ∧
      (handle_ticket_action fd ctx action).events = []) := by
  refine ⟨?_, ?_, ?_⟩
  · intro ha ht
    have hcond : action.action = "create" ∧ pyTruthy ctx.ticket_id = false := ⟨ha, ht⟩
    rw [handle_ticket_action, if_pos hcond]
    cases hc : fd.create ⟨action.subject, action.description, "user@example.com",
        PyVal.ofOptInt action.status, PyVal.ofOptInt action.priority, action.tags⟩ <;>
      simp [hc]
  · intro ha ht
    cases hct : ctx.ticket_id with
    | none => simp [pyTruthy, hct] at ht
    | some tid =>
      refine ⟨tid, rfl, ?_⟩
      have hcond1 : ¬(action.action = "create" ∧ pyTruthy ctx.ticket_id = false) := by
        intro hc
        rw [ha] at hc
        exact absurd hc.1 (by decide)
      have hcond2 : action.action = "update" ∧ pyTruthy ctx.ticket_id = true := ⟨ha, ht⟩
      rw [handle_ticket_action, if_neg hcond1, if_pos hcond2]
      rw [hct]
      cases hu : fd.update ⟨tid, PyVal.ofOptInt action.status, PyVal.ofOptInt action.priority⟩ <;>
        simp [hu]
  · intro h1 h2
    rw [handle_ticket_action, if_neg h1, if_neg h2]
    exact ⟨rfl, rfl, rfl, rfl⟩

/-- A resolve directive: treated as a no-op by the orchestration path. -/
def resolveDirective : TicketAction :=
  ⟨"resolve", none, some 4, none, none, [], "Issue is fixed", []⟩

/-- C3 witness: a `resolve` directive issues no ticketing call and leaves the
context unchanged. -/
theorem C3_witness :
    (handle_ticket_action fdOk42 zeroTicketCtx resolveDirective).calls = [] ∧
    (handle_ticket_action fdOk42 zeroTicketCtx resolveDirective).ctx = zeroTicketCtx :=
  have h := (C3_amended_dispatch fdOk42 zeroTicketCtx resolveDirective).2.2
    (by decide) (by decide)
  ⟨h.1, h.2.1⟩

end Geppetto

namespace Geppetto

/-- A mocked client returning a fixed ticket record with id 777. -/
def fdOk777 : FdClient :=
  ⟨fun _ => .ok ⟨777, "s7", "d7", .OPEN, .URGENT, 1, "ts", "ts", []⟩,
    fun _ => .ok ⟨777, "s7", "d7", .OPEN, .URGENT, 1, "ts", "ts", []⟩⟩

/-- A context whose `ticket_id` is set to 0, exercising the truthiness guard. -/
def zeroTicketCtx2 : SupportContext :=
  { SupportContext.new 22 "U22" "C22" none 4 with ticket_id := some 0 }

/-- A create directive that overwrites the zero ticket id. -/
def overwriteDirective : TicketAction :=
  ⟨"create", some 3, none, some "again", some "description again", [],
    "Create a second ticket", []⟩

/-- C4 counterexample: a context whose `ticket_id` is set (to 0) has it
reassigned to a different value (777) by the create path — the guard tests
truthiness, not unset-ness, so set-once monotonicity fails at 0. -/
theorem C4_counterexample :
    zeroTicketCtx2.ticket_id = some 0 ∧
    (handle_ticket_action fdOk777 zeroTicketCtx2 overwriteDirective).ctx.ticket_id = some 777 ∧
    (some 777 : Option Int) ≠ some 0 :=
  ⟨rfl, rfl, by decide⟩

/-- Case split on how `_handle_ticket_action` leaves the context: either
unchanged, or — only when `ticket_id` was falsy — with `ticket_id` set by a
create call. -/
theorem handle_ctx_cases (fd : FdClient) (ctx : SupportContext) (action : TicketAction) :
    (handle_ticket_action fd ctx action).ctx = ctx ∨
    (pyTruthy ctx.ticket_id = false ∧ ∃ t,
      (handle_ticket_action fd ctx action).ctx = { ctx with ticket_id := some t } ∧
      ∃ args, (handle_ticket_action fd ctx action).calls = [TicketCall.create args]) := by
  rw [handle_ticket_action]
  split_ifs with h1 h2
  · cases hc : fd.create ⟨action.subject, action.description, "user@example.com",
        PyVal.ofOptInt action.status, PyVal.ofOptInt action.priority, action.tags⟩ with
    | ok t =>
      exact Or.inr ⟨h1.2, t.ticket_id, by simp [hc],
        ⟨action.subject, action.description, "user@example.com",
          PyVal.ofOptInt action.status, PyVal.ofOptInt action.priority, action.tags⟩,
        by simp [hc]⟩
    | error e => exact Or.inl (by simp [hc])
  · cases hct : ctx.ticket_id with
    | none => exact Or.inl (by simp [hct])
    | some tid =>
      cases hu : fd.update ⟨tid, PyVal.ofOptInt action.status, PyVal.ofOptInt action.priority⟩ with
      | ok t => exact Or.inl (by simp [hct, hu])
      | error e => exact Or.inl (by simp [hct, hu])
  · exact Or.inl rfl

/-- Handler `_handle_ticket_action` never touches `conversation_id`. -/
theorem handle_conversation_id (fd : FdClient) (ctx : SupportContext) (action : TicketAction) :
    (handle_ticket_action fd ctx action).ctx.conversation_id = ctx.conversation_id := by
  rcases handle_ctx_cases fd ctx action with h | ⟨_, t, h, _⟩ <;> rw [h]

/-- A nonzero `ticket_id` survives `_handle_ticket_action` unchanged. -/
theorem handle_ticket_mono (fd : FdClient) (ctx : SupportContext) (action : TicketAction)
    (n : Int) (hn : n ≠ 0) (h : ctx.ticket_id = some n) :
    (handle_ticket_action fd ctx action).ctx.ticket_id = some n := by
  rcases handle_ctx_cases fd ctx action with hc | ⟨hfalse, t, hc, _⟩
  · rw [hc, h]
  · rw [h] at hfalse
    simp [pyTruthy] at hfalse
    exact absurd hfalse hn

/-- Case split on how `process_message` leaves the context: the timestamp is
refreshed, and beyond that the context changes only through the ticket-action
handler. -/
theorem proc_ctx_cases (llm : List ChatMessage → Except PyErr ITSupportResponse)
    (fd : FdClient) (now : Nat) (msg : String) (ctx : SupportContext) :
    (process_message llm fd now msg ctx).ctx = { ctx with last_updated := now } ∨
    ∃ action,
      (process_message llm fd now msg ctx).ctx =
        (handle_ticket_action fd { ctx with last_updated := now } action).ctx ∧
      (process_message llm fd now msg ctx).calls =
        (handle_ticket_action fd { ctx with last_updated := now } action).calls := by
  rw [process_message]
  cases hllm : llm (buildMessages msg) with
  | error e => exact Or.inl rfl
  | ok resp =>
    cases hta : resp.ticket_action with
    | none => exact Or.inl (by simp [hta])
    | some action =>
      cases hr : (handle_ticket_action fd { ctx with last_updated := now } action).result with
      | ok u => exact Or.inr ⟨action, by simp [hta, hr], by simp [hta, hr]⟩
      | error e => exact Or.inr ⟨action, by simp [hta, hr], by simp [hta, hr]⟩

/-- Step `process_message` never touches `conversation_id`. -/
theorem proc_conversation_id (llm : List ChatMessage → Except PyErr ITSupportResponse)
    (fd : FdClient) (now : Nat) (msg : String) (ctx : SupportContext) :
    (process_message llm fd now msg ctx).ctx.conversation_id = ctx.conversation_id := by
  rcases proc_ctx_cases llm fd now msg ctx with h | ⟨action, h, _⟩
  · rw [h]
  · rw [h, handle_conversation_id]

/-- A nonzero `ticket_id` survives `process_message` unchanged. -/
theorem proc_ticket_mono (llm : List ChatMessage → Except PyErr ITSupportResponse)
    (fd : FdClient) (now : Nat) (msg : String) (ctx : SupportContext)
    (n : Int) (hn : n ≠ 0) (h : ctx.ticket_id = some n) :
    (process_message llm fd now msg ctx).ctx.ticket_id = some n := by
  rcases proc_ctx_cases llm fd now msg ctx with hc | ⟨action, hc, _⟩
  · rw [hc, h]
  · rw [hc]
    exact handle_ticket_mono fd _ action n hn h

/-- Field `conversation_id` is preserved by any sequence of engine operations. -/
theorem runOps_conversation_id (ops : List EngineOp) (ctx : SupportContext) :
    (runOps ctx ops).conversation_id = ctx.conversation_id := by
  induction ops generalizing ctx with
  | nil => rfl
  | cons op ops ih =>
    show (runOps (runOp ctx op) ops).conversation_id = _
    rw [ih]
    cases op with
    | proc llm fd now msg => exact proc_conversation_id llm fd now msg ctx
    | ticketAct fd action => exact handle_conversation_id fd ctx action

/-- A nonzero `ticket_id` is preserved by any sequence of engine operations. -/
theorem runOps_ticket_mono (ops : List EngineOp) (ctx : SupportContext)
    (n : Int) (hn : n ≠ 0) (h : ctx.ticket_id = some n) :
    (runOps ctx ops).ticket_id = some n := by
  induction ops generalizing ctx with
  | nil => exact h
  | cons op ops ih =>
    show (runOps (runOp ctx op) ops).ticket_id = some n
    refine ih _ ?_
    cases op with
    | proc llm fd now msg => exact proc_ticket_mono llm fd now msg ctx n hn h
    | ticketAct fd action => exact handle_ticket_mono fd ctx action n hn h

/-- C4 (amended): across every sequence of engine operations,
`conversation_id` is never changed and a `ticket_id` that is set to a
NONZERO value is never cleared or reassigned; from the unset state,
`ticket_id` becomes set only through a create call (a `ticket_id` equal to 0
counts as falsy for the create guard and is not protected — see the
counterexample). -/
theorem C4_amended_ticket_lifecycle (ops : List EngineOp) (ctx : SupportContext) :
    ((runOps ctx ops).conversation_id = ctx.conversation_id) ∧
    (∀ n, n ≠ 0 → ctx.ticket_id = some n → (runOps ctx ops).ticket_id = some n) ∧
    (∀ fd action, ctx.ticket_id = none →
      (handle_ticket_action fd ctx action).ctx.ticket_id = none ∨
      ∃ args, (handle_ticket_action fd ctx action).calls = [TicketCall.create args]) ∧
    (∀ llm fd now msg, ctx.ticket_id = none →
      (process_message llm fd now msg ctx).ctx.ticket_id = none ∨
      ∃ args, (process_message llm fd now msg ctx).calls = [TicketCall.create args]) := by
  refine ⟨runOps_conversation_id ops ctx,
    fun n hn h => runOps_ticket_mono ops ctx n hn h, ?_, ?_⟩
  · intro fd action h
    rcases handle_ctx_cases fd ctx action with hc | ⟨_, t, _, args, hcalls⟩
    · exact Or.inl (by rw [hc, h])
    · exact Or.inr ⟨args, hcalls⟩
  · intro llm fd now msg h
    rcases proc_ctx_cases llm fd now msg ctx with hc | ⟨action, hc, hcalls⟩
    · exact Or.inl (by rw [hc]; exact h)
    · rcases handle_ctx_cases fd { ctx with last_updated := now } action with
        hc2 | ⟨_, t, _, args, hcalls2⟩
      · exact Or.inl (by rw [hc, hc2]; exact h)
      · exact Or.inr ⟨args, by rw [hcalls, hcalls2]⟩

/-- A context carrying the nonzero ticket id 12345. -/
def ctx12345 : SupportContext :=
  { SupportContext.new 31 "U31" "C31" none 6 with ticket_id := some 12345 }

/-- C4 witness: a nonzero ticket id survives a ticket-action step. -/
theorem C4_witness :
    (runOps ctx12345 [EngineOp.ticketAct fdOk777 overwriteDirective]).ticket_id = some 12345 :=
  (C4_amended_ticket_lifecycle [EngineOp.ticketAct fdOk777 overwriteDirective] ctx12345).2.1
    12345 (by decide) rfl

end Geppetto

namespace Geppetto

/-- When the ticket-action step fails, the handler leaves the context alone
and its own log is exactly one `ticket_error` event carrying the error
text. -/
theorem handle_error_case (fd : FdClient) (c : SupportContext) (a : TicketAction) (e : PyErr)
    (h : (handle_ticket_action fd c a).result = .error e) :
    (handle_ticket_action fd c a).ctx = c ∧
    (handle_ticket_action fd c a).events =
      [mkEvent "ticket_error" c "error" (some (.errorText e.str))] := by
  rw [handle_ticket_action] at h ⊢
  split_ifs at h ⊢ with h1 h2
  · cases hc : fd.create ⟨a.subject, a.description, "user@example.com",
        PyVal.ofOptInt a.status, PyVal.ofOptInt a.priority, a.tags⟩ with
    | ok t => simp [hc] at h
    | error e2 =>
      simp only [hc, Except.error.injEq] at h
      subst h
      simp [hc]
  · cases hct : c.ticket_id with
    | none =>
      rw [hct] at h2
      simp [pyTruthy] at h2
    | some tid =>
      cases hu : fd.update ⟨tid, PyVal.ofOptInt a.status, PyVal.ofOptInt a.priority⟩ with
      | ok t => simp [hct, hu] at h
      | error e2 =>
        simp only [hct, hu, Except.error.injEq] at h
        subst h
        simp [hct, hu]

/-- C6: every exception raised inside `process_message` is logged and the
same exception is re-raised.  A router failure logs exactly one
`processing_error` event with the error text, re-raises that exception and
attempts no ticket action; a ticket-action failure logs the `ticket_error`
event (and the outer `processing_error`) with the error text and re-raises;
and every failing run has a logged `processing_error`/`ticket_error` event
carrying the text of the re-raised error. -/
theorem C6_error_logging (llm : List ChatMessage → Except PyErr ITSupportResponse)
    (fd : FdClient) (now : Nat) (msg : String) (ctx : SupportContext) :
    (∀ e, llm (buildMessages msg) = .error e →
      (process_message llm fd now msg ctx).result = .error e ∧
      (process_message llm fd now msg ctx).calls = [] ∧
      (process_message llm fd now msg ctx).events =
        [mkEvent "processing_error" { ctx with last_updated := now } "error"
          (some (.errorText e.str))]) ∧
    (∀ resp action e, llm (buildMessages msg) = .ok resp → resp.ticket_action = some action →
      (handle_ticket_action fd { ctx with last_updated := now } action).result = .error e →
      (process_message llm fd now msg ctx).result = .error e ∧
      mkEvent "ticket_error" { ctx with last_updated := now } "error" (some (.errorText e.str))
        ∈ (process_message llm fd now msg ctx).events ∧
      mkEvent "processing_error" { ctx with last_updated := now } "error" (some (.errorText e.str))
        ∈ (process_message llm fd now msg ctx).events) ∧
    (∀ e, (process_message llm fd now msg ctx).result = .error e →
      ∃ ev, ev ∈ (process_message llm fd now msg ctx).events ∧
        (ev.event_type = "processing_error" ∨ ev.event_type = "ticket_error") ∧
        ev.details = some (.errorText e.str)) := by
  refine ⟨?_, ?_, ?_⟩
  · intro e he
    refine ⟨?_, ?_, ?_⟩ <;> simp [process_message, he]
  · intro resp action e hok hta hr
    obtain ⟨hctx, hev⟩ :=
      handle_error_case fd { ctx with last_updated := now } action e hr
    refine ⟨?_, ?_, ?_⟩ <;> simp [process_message, hok, hta, hr, hev, hctx, mkEvent]
  · intro e he
    cases hllm : llm (buildMessages msg) with
    | error e0 =>
      have h0 : (process_message llm fd now msg ctx).result = .error e0 := by
        simp [process_message, hllm]
      rw [he] at h0
      simp only [Except.error.injEq] at h0
      refine ⟨mkEvent "processing_error" { ctx with last_updated := now } "error"
        (some (.errorText e.str)), ?_, Or.inl rfl, rfl⟩
      simp [process_message, hllm, h0]
    | ok resp =>
      cases hta : resp.ticket_action with
      | none =>
        have h0 : (process_message llm fd now msg ctx).result = .ok resp := by
          simp [process_message, hllm, hta]
        rw [he] at h0
        exact Except.noConfusion h0
      | some action =>
        cases hr : (handle_ticket_action fd { ctx with last_updated := now } action).result with
        | ok u =>
          have h0 : (process_message llm fd now msg ctx).result = .ok resp := by
            simp [process_message, hllm, hta, hr]
          rw [he] at h0
          exact Except.noConfusion h0
        | error e0 =>
          have h0 : (process_message llm fd now msg ctx).result = .error e0 := by
            simp [process_message, hllm, hta, hr]
          rw [he] at h0
          simp only [Except.error.injEq] at h0
          subst h0
          obtain ⟨hctx, hev⟩ :=
            handle_error_case fd { ctx with last_updated := now } action e hr
          refine ⟨mkEvent "ticket_error" { ctx with last_updated := now } "error"
            (some (.errorText e.str)), ?_, Or.inr rfl, rfl⟩
          simp [process_message, hllm, hta, hr, hev]

/-- A router behaviour that always raises. -/
def failingLlm : List ChatMessage → Except PyErr ITSupportResponse :=
  fun _ => .error (.generic "Test error")

/-- A client that is never reached in the witness scenario. -/
def idleClient : FdClient :=
  ⟨fun _ => .error (.generic "unreachable"), fun _ => .error (.generic "unreachable")⟩

/-- A plain context for the scenario-E witness. -/
def scenarioECtx : SupportContext := SupportContext.new 41 "U41" "C41" none 8

/-- C6 witness (Scenario E): the router raises, `processing_error` is logged,
the exception propagates, and no ticket action is attempted. -/
theorem C6_witness :
    (process_message failingLlm idleClient 9 "hello" scenarioECtx).result =
      .error (.generic "Test error") ∧
    (process_message failingLlm idleClient 9 "hello" scenarioECtx).calls = [] ∧
    (process_message failingLlm idleClient 9 "hello" scenarioECtx).events =
      [mkEvent "processing_error" { scenarioECtx with last_updated := 9 } "error"
        (some (.errorText (PyErr.str (.generic "Test error"))))] :=
  (C6_error_logging failingLlm idleClient 9 "hello" scenarioECtx).1
    (.generic "Test error") rfl

end Geppetto

namespace Geppetto

/-- C7: for a `conversation_id` already registered in the store,
`get_or_create_context` returns the address of the stored context object
itself (identity, not a copy), changes nothing in the agent state (so no
field of any stored context is mutated), logs nothing, and a second call with
the same id returns the very same address again. -/
theorem C7_get_or_create_identity (st : AgentState) (uid ch : String) (ts : Option String)
    (cid : UUID) (addr : Nat) (h : st.lookup cid = some addr)
    (fresh1 fresh2 : UUID) (n1 n2 : Nat) :
    (get_or_create_context st uid ch ts (some cid) fresh1 n1).addr = addr ∧
    (get_or_create_context st uid ch ts (some cid) fresh1 n1).st = st ∧
    (get_or_create_context st uid ch ts (some cid) fresh1 n1).events = [] ∧
    (get_or_create_context
        (get_or_create_context st uid ch ts (some cid) fresh1 n1).st
        uid ch ts (some cid) fresh2 n2).addr =
      (get_or_create_context st uid ch ts (some cid) fresh1 n1).addr ∧
    (get_or_create_context
        (get_or_create_context st uid ch ts (some cid) fresh1 n1).st
        uid ch ts (some cid) fresh2 n2).st = st := by
  refine ⟨?_, ?_, ?_, ?_, ?_⟩ <;> simp [get_or_create_context, h]

/-- A one-entry agent state: the context object at address 0 is registered
under conversation id 99. -/
def oneCtxState : AgentState :=
  ⟨[SupportContext.new 99 "U99" "C99" none 12], [(99, 0)]⟩

/-- C7 witness: fetching the known conversation 99 twice returns address 0
both times and leaves the state untouched. -/
theorem C7_witness :
    (get_or_create_context oneCtxState "U99" "C99" none (some 99) 123 13).addr = 0 ∧
    (get_or_create_context oneCtxState "U99" "C99" none (some 99) 123 13).st = oneCtxState :=
  have h := C7_get_or_create_identity oneCtxState "U99" "C99" none 99 0 rfl 123 124 13 14
  ⟨h.1, h.2.1⟩

/-- C10: when `conversation_id` is absent or unknown, a new context is
allocated at a fresh address, its `conversation_id` is the freshly generated
uuid, and it is registered under that fresh id — never under the
caller-supplied id: a supplied unknown id (distinct from the generated ones)
remains unregistered, and a later call with that same supplied id allocates
yet another new context at yet another address. -/
theorem C10_fresh_registration (st : AgentState) (uid ch : String) (ts : Option String)
    (conversation_id : Option UUID) (freshId : UUID) (now : Nat)
    (hmiss : ∀ cid, conversation_id = some cid → st.lookup cid = none) :
    (get_or_create_context st uid ch ts conversation_id freshId now).addr = st.heap.length ∧
    (get_or_create_context st uid ch ts conversation_id freshId now).st.heap =
      st.heap ++ [SupportContext.new freshId uid ch ts now] ∧
    (get_or_create_context st uid ch ts conversation_id freshId now).st.contexts =
      (freshId, st.heap.length) :: st.contexts ∧
    (SupportContext.new freshId uid ch ts now).conversation_id = freshId ∧
    (∀ cid, conversation_id = some cid → cid ≠ freshId →
      (get_or_create_context st uid ch ts conversation_id freshId now).st.lookup cid = none) ∧
    (∀ cid freshId2 now2, conversation_id = some cid → cid ≠ freshId →
      (get_or_create_context
          (get_or_create_context st uid ch ts conversation_id freshId now).st
          uid ch ts (some cid) freshId2 now2).addr = st.heap.length + 1 ∧
      (get_or_create_context
          (get_or_create_context st uid ch ts conversation_id freshId now).st
          uid ch ts (some cid) freshId2 now2).st.heap =
        st.heap ++ [SupportContext.new freshId uid ch ts now,
          SupportContext.new freshId2 uid ch ts now2]) := by
  have hbase :
      get_or_create_context st uid ch ts conversation_id freshId now =
        createNewContext st uid ch ts freshId now := by
    cases conversation_id with
    | none => rfl
    | some cid =>
      have := hmiss cid rfl
      simp [get_or_create_context, this]
  have hlook : ∀ cid, conversation_id = some cid → cid ≠ freshId →
      (createNewContext st uid ch ts freshId now).st.lookup cid = none := by
    intro cid hc hne
    have hb : (cid == freshId) = false := by
      simp [hne]
    simp [createNewContext, AgentState.lookup, List.lookup, hb]
    have := hmiss cid hc
    simpa [AgentState.lookup] using this
  refine ⟨by rw [hbase]; rfl, by rw [hbase]; rfl, by rw [hbase]; rfl, rfl, ?_, ?_⟩
  · intro cid hc hne
    rw [hbase]
    exact hlook cid hc hne
  · intro cid freshId2 now2 hc hne
    rw [hbase]
    have hl := hlook cid hc hne
    have hl2 : (AgentState.mk (st.heap ++ [SupportContext.new freshId uid ch ts now])
        ((freshId, st.heap.length) :: st.contexts)).lookup cid = none := by
      simpa [createNewContext] using hl
    constructor
    · simp [get_or_create_context, createNewContext, hl2, List.length_append]
    · simp [get_or_create_context, createNewContext, hl2, List.length_append]

/-- C10 witness: an unknown supplied id (7) on the one-entry state allocates
address 1 under the fresh id 55, and a repeat call with the same supplied id
allocates address 2. -/
theorem C10_witness :
    (get_or_create_context oneCtxState "U7" "C7" none (some 7) 55 20).addr = 1 ∧
    (get_or_create_context
        (get_or_create_context oneCtxState "U7" "C7" none (some 7) 55 20).st
        "U7" "C7" none (some 7) 56 21).addr = 2 :=
  have h := C10_fresh_registration oneCtxState "U7" "C7" none (some 7) 55 20
    (fun cid hc => by cases hc; rfl)
  ⟨h.1, ((h.2.2.2.2.2) 7 56 21 rfl (by decide)).1⟩

end Geppetto
